import Mathlib

/-!
Shallow embedding of the temperature-explorer ingestion pipeline
(`src/app.py`): the CSV loader with encoding fallback, the column
reconciler, the wide-to-long reshaper, the time-label normalizer and the
value validator.  DataFrames are modelled as tables whose rows are
association lists from column names to cells; machine floats are modelled
as rationals; raised exceptions are modelled with `Except`.
-/

namespace TempExplorer

/-- A cell of a pandas column: missing (NaN/NaT), a numeric value,
a string, or a parsed datetime (represented by a rational code). -/
inductive Cell where
  | na : Cell
  | num : ℚ → Cell
  | str : String → Cell
  | date : ℚ → Cell
deriving DecidableEq

/-- A row, as an association list from column name to cell (keys are the
column names in column order). -/
abbrev Row := List (String × Cell)

/-- A DataFrame: ordered column names, rows, and the set of columns whose
dtype is datetime64 (needed for the `np.issubdtype` check in `to_long`). -/
structure Table where
  cols : List String
  rows : List Row
  datetimeCols : List String
deriving DecidableEq

/-- `df[c]` for one row: the cell under column `c` (missing key gives NaN). -/
def getCell (r : Row) (c : String) : Cell :=
  (List.lookup c r).getD Cell.na

/-- The list of values of column `c` (pandas `df[c]`). -/
def getColumn (t : Table) (c : String) : List Cell :=
  t.rows.map (fun r => getCell r c)

/-- Rows are keyed exactly by the table's columns, in order. -/
def WF (t : Table) : Prop := ∀ r ∈ t.rows, r.map Prod.fst = t.cols

instance decidableWF (t : Table) : Decidable (WF t) :=
  decidable_of_iff (∀ r ∈ t.rows, r.map Prod.fst = t.cols) Iff.rfl

/-- Key renaming inside a row, for `df.rename(columns={old: new})`. -/
def renameKey (old new : String) (r : Row) : Row :=
  r.map (fun p => (if p.1 = old then new else p.1, p.2))

/-- `df.rename(columns={old: new})`. -/
def renameCol (old new : String) (t : Table) : Table :=
  { cols := t.cols.map (fun c => if c = old then new else c),
    rows := t.rows.map (renameKey old new),
    datetimeCols := t.datetimeCols.map (fun c => if c = old then new else c) }

/-- `df.drop(columns=[c])`. -/
def dropCol (c : String) (t : Table) : Table :=
  { cols := t.cols.filter (fun x => decide (x ≠ c)),
    rows := t.rows.map (fun r => r.filter (fun p => decide (p.1 ≠ c))),
    datetimeCols := t.datetimeCols.filter (fun x => decide (x ≠ c)) }

/-- Python `str.isspace` characters relevant here: ASCII whitespace and
the non-breaking space (Python's `str.strip()` strips all of them). -/
def isPySpace (c : Char) : Bool :=
  c == ' ' || c == '\t' || c == '\n' || c == '\r' || c == '\x0b' || c == '\x0c' || c == '\u00A0'

/-- Python `s.strip()`: drop whitespace from both ends. -/
def pyStrip (s : String) : String :=
  String.mk (((s.data.dropWhile isPySpace).reverse.dropWhile isPySpace).reverse)

/-- Numeric value of a decimal digit character. -/
def digitVal (c : Char) : ℕ := c.toNat - 48

/-- Value of a list of decimal digit characters. -/
def digitsVal (cs : List Char) : ℕ :=
  cs.foldl (fun a c => a * 10 + digitVal c) 0

/-- Decimal-literal parsing of an unsigned number (digits with an optional
fractional part), the core of `float()` conversion used by
`pd.to_numeric`. -/
def parseUnsigned (cs : List Char) : Option ℚ :=
  let intPart := cs.takeWhile Char.isDigit
  let rest := cs.dropWhile Char.isDigit
  match rest with
  | [] => if intPart.isEmpty then none else some ((digitsVal intPart : ℕ) : ℚ)
  | c :: frac =>
    if c == '.' && frac.all Char.isDigit && (!intPart.isEmpty || !frac.isEmpty) then
      some (mkRat ((digitsVal intPart * 10 ^ frac.length + digitsVal frac : ℕ) : ℤ)
                  (10 ^ frac.length))
    else none

/-- Decimal-literal parsing with an optional sign; strings that are not
numeric literals yield `none` (which `pd.to_numeric(errors="coerce")`
turns into NaN). -/
def parseNum (s : String) : Option ℚ :=
  match s.data with
  | [] => none
  | c :: rest =>
    if c == '-' then (parseUnsigned rest).map (fun q => -q)
    else if c == '+' then parseUnsigned rest
    else parseUnsigned (c :: rest)

/-- ISO `YYYY-MM-DD` date parsing, modelling the successful case of
`pd.to_datetime`; the parsed date is coded as the rational
`y*10000 + m*100 + d`. -/
def parseDateISO (s : String) : Option ℚ :=
  match s.data with
  | [y1, y2, y3, y4, h1, m1, m2, h2, d1, d2] =>
    if y1.isDigit && y2.isDigit && y3.isDigit && y4.isDigit &&
       h1 == '-' && m1.isDigit && m2.isDigit && h2 == '-' && d1.isDigit && d2.isDigit then
      let m := digitVal m1 * 10 + digitVal m2
      let d := digitVal d1 * 10 + digitVal d2
      if 1 ≤ m && m ≤ 12 && 1 ≤ d && d ≤ 31 then
        some (((digitsVal [y1, y2, y3, y4] * 10000 + m * 100 + d : ℕ) : ℚ))
      else none
    else none
  | _ => none

/-- `pd.to_datetime(cell, errors="coerce")`: datetimes pass through,
numbers convert to a timestamp, parseable strings become dates,
everything else becomes NaT. -/
def toDatetimeCell : Cell → Cell
  | Cell.date t => Cell.date t
  | Cell.num q => Cell.date q
  | Cell.str s =>
    match parseDateISO s with
    | some t => Cell.date t
    | none => Cell.na
  | Cell.na => Cell.na

/-- Coerce the `Date` cell of one row. -/
def setDateRow (r : Row) : Row :=
  r.map (fun p => if p.1 = "Date" then (p.1, toDatetimeCell p.2) else p)

/-- Lines 52-53 of `app.py`: if the `Date` column is not already of
datetime dtype, replace it by `pd.to_datetime(df["Date"], errors="coerce")`
(this assignment mutates the underlying table in place). -/
def coerceDates (df : Table) : Table :=
  if "Date" ∈ df.datetimeCols then df
  else { cols := df.cols, rows := df.rows.map setDateRow,
         datetimeCols := "Date" :: df.datetimeCols }

/-- The six canonical time labels, in display order (`TIME_ORDER`). -/
def TIME_ORDER : List String := ["07:00", "11:00", "14:00", "16:00", "18:00", "21:00"]

/-- Search semantics of `TIME_PAT = (?:(\d{2})(\d{2}))|(\d{2})` followed by
the group dispatch of `to_time_label`: scan left to right; at the first
position where two consecutive digits start, prefer a four-digit match
(giving `"HH:MM"`) and fall back to a two-digit match (giving `"HH:00"`);
with no match anywhere, return the raw name. -/
def timeSearch (orig : String) : List Char → String
  | [] => orig
  | [_] => orig
  | c1 :: c2 :: rest =>
    if c1.isDigit && c2.isDigit then
      match rest with
      | c3 :: c4 :: _ =>
        if c3.isDigit && c4.isDigit then
          String.mk [c1, c2] ++ ":" ++ String.mk [c3, c4]
        else String.mk [c1, c2] ++ ":00"
      | _ => String.mk [c1, c2] ++ ":00"
    else timeSearch orig (c2 :: rest)

/-- `to_time_label` of `app.py` (lines 33-41). -/
def to_time_label (colname : String) : String :=
  timeSearch colname colname.data

/-- Index of the first position where two consecutive digits start. -/
def digitPairPos : List Char → Option ℕ
  | c1 :: c2 :: rest =>
    if c1.isDigit && c2.isDigit then some 0
    else (digitPairPos (c2 :: rest)).map (fun i => i + 1)
  | _ => none

/-- Restatement of `to_time_label` through `digitPairPos`: the label is
read off at the first two-consecutive-digit position, taking four digits
when four start there and two otherwise, with no validity check on the
hour or minute. -/
def to_time_label_amended (s : String) : String :=
  match digitPairPos s.data with
  | none => s
  | some i =>
    match s.data.drop i with
    | c1 :: c2 :: c3 :: c4 :: _ =>
      if c3.isDigit && c4.isDigit then
        String.mk [c1, c2] ++ ":" ++ String.mk [c3, c4]
      else String.mk [c1, c2] ++ ":00"
    | c1 :: c2 :: _ => String.mk [c1, c2] ++ ":00"
    | _ => s

/-- The pair of digits is a valid hour (00-23). -/
def hourOk (c1 c2 : Char) : Bool := digitVal c1 * 10 + digitVal c2 < 24

/-- The pair of digits is a valid minute (00-59). -/
def minuteOk (c1 c2 : Char) : Bool := digitVal c1 * 10 + digitVal c2 < 60

/-- First four consecutive digits forming a valid hour-minute group. -/
def find4Valid : List Char → Option (Char × Char × Char × Char)
  | c1 :: c2 :: rest =>
    match rest with
    | c3 :: c4 :: _ =>
      if c1.isDigit && c2.isDigit && c3.isDigit && c4.isDigit &&
         hourOk c1 c2 && minuteOk c3 c4 then
        some (c1, c2, c3, c4)
      else find4Valid (c2 :: rest)
    | _ => none
  | _ => none

/-- First two consecutive digits. -/
def find2 : List Char → Option (Char × Char)
  | c1 :: c2 :: rest =>
    if c1.isDigit && c2.isDigit then some (c1, c2) else find2 (c2 :: rest)
  | _ => none

/-- The time-label mapping as the spec sentence words it: first a 4-digit
group whose digits form a valid hour and minute gives `"HH:MM"`, otherwise
a 2-digit group gives `"HH:00"`, otherwise the raw name is returned. -/
def to_time_label_specWords (s : String) : String :=
  match find4Valid s.data with
  | some (c1, c2, c3, c4) => String.mk [c1, c2] ++ ":" ++ String.mk [c3, c4]
  | none =>
    match find2 s.data with
    | some (c1, c2) => String.mk [c1, c2] ++ ":00"
    | none => s

/-- One record of the melted long table: the four identifier fields, the
raw reading-column name (`Time`), the reading (`Value`), the family tag
(`Source`) and the categorical time label (`TimeLabel`, where `none` is
the NaN a non-category label becomes). -/
structure Rec where
  Date : Cell
  Station : Cell
  CommonLocation : Cell
  Location : Cell
  Time : String
  Value : Cell
  Source : String
  TimeLabel : Option String
deriving DecidableEq

/-- The fixed BMS reading-column names (line 54). -/
def bmsNames : List String :=
  ["0700_BMS", "1100_BMS", "1400_BMS", "1600_BMS", "1800_BMS", "2100_BMS"]

/-- The fixed manual reading-column names (line 55). -/
def manualNames : List String :=
  ["Manual07", "Manual11", "Manual14", "Manual16", "Manual18", "Manual21"]

/-- The four required identifier columns (line 48). -/
def requiredIdCols : List String := ["Date", "Station", "Common Location", "Location"]

/-- One melted record from row `r` under reading column `v`
(`df.melt(id_vars=..., value_vars=...)` with `var_name="Time"`,
`value_name="Value"`); `Source` and `TimeLabel` are attached later. -/
def meltRow (v : String) (r : Row) : Rec :=
  { Date := getCell r "Date", Station := getCell r "Station",
    CommonLocation := getCell r "Common Location", Location := getCell r "Location",
    Time := v, Value := getCell r v, Source := "", TimeLabel := none }

/-- `df.melt`: one record per (reading column, row) pair, reading columns
outermost, matching the pandas stacking order. -/
def melt (df : Table) (value_vars : List String) : List Rec :=
  value_vars.flatMap (fun v => df.rows.map (meltRow v))

/-- `frame["Source"] = s`. -/
def setSource (s : String) (rs : List Rec) : List Rec :=
  rs.map (fun r => { r with Source := s })

/-- Lines 59-68: melt the manual family then the BMS family (each only for
the columns actually present) and concatenate, manual frame first. -/
def meltStage (df : Table) : List Rec :=
  setSource "Manual" (melt df (manualNames.filter (fun c => decide (c ∈ df.cols)))) ++
  setSource "BMS" (melt df (bmsNames.filter (fun c => decide (c ∈ df.cols))))

/-- `pd.to_numeric(cell, errors="coerce")`. -/
def toNumericCell : Cell → Cell
  | Cell.num q => Cell.num q
  | Cell.str s =>
    match parseNum s with
    | some q => Cell.num q
    | none => Cell.na
  | _ => Cell.na

/-- Line 69: coerce the `Value` column to numeric. -/
def toNumericStage (rs : List Rec) : List Rec :=
  rs.map (fun r => { r with Value := toNumericCell r.Value })

/-- A cell that is not missing. -/
def notNa : Cell → Bool
  | Cell.na => false
  | _ => true

/-- Line 70: `out.dropna(subset=["Value", "Date"])`. -/
def dropnaStage (rs : List Rec) : List Rec :=
  rs.filter (fun r => notNa r.Value && notNa r.Date)

/-- `cell >= q` as pandas evaluates it on a numeric column (NaN compares
false). -/
def cellGE (c : Cell) (q : ℚ) : Bool :=
  match c with
  | Cell.num v => decide (q ≤ v)
  | _ => false

/-- `cell <= q` as pandas evaluates it on a numeric column. -/
def cellLE (c : Cell) (q : ℚ) : Bool :=
  match c with
  | Cell.num v => decide (v ≤ q)
  | _ => false

/-- Line 71: keep records whose value lies in the inclusive range 15..50. -/
def rangeStage (rs : List Rec) : List Rec :=
  rs.filter (fun r => cellGE r.Value 15 && cellLE r.Value 50)

/-- Line 73: `pd.Categorical(label, categories=TIME_ORDER, ordered=True)`
on one value — a label outside the category list becomes NaN. -/
def toCategorical (lbl : String) : Option String :=
  if lbl ∈ TIME_ORDER then some lbl else none

/-- Lines 72-73: set `TimeLabel` to the normalized label of the raw `Time`
name, then convert to the ordered categorical over `TIME_ORDER`. -/
def labelStage (rs : List Rec) : List Rec :=
  rs.map (fun r => { r with TimeLabel := toCategorical (to_time_label r.Time) })

/-- `str(x)` of a cell, for `astype(str)` (NaN prints as "nan"; numbers
and dates print as nonempty numerals). -/
def cellStr : Cell → String
  | Cell.na => "nan"
  | Cell.num q => toString q.num ++ (if q.den = 1 then "" else "/" ++ toString q.den)
  | Cell.date t => toString t.num ++ (if t.den = 1 then "" else "/" ++ toString t.den)
  | Cell.str s => s

/-- Line 74: keep records whose stripped `Station` and `Location` strings
are nonempty. -/
def blankStage (rs : List Rec) : List Rec :=
  rs.filter (fun r =>
    decide (pyStrip (cellStr r.Station) ≠ "") && decide (pyStrip (cellStr r.Location) ≠ ""))

/-- The record sequence just before the blank-identifier filter of
line 74, for a reconciled and date-coerced table. -/
def preBlank (df : Table) : List Rec :=
  labelStage (rangeStage (dropnaStage (toNumericStage (meltStage df))))

/-- The two fatal errors `to_long` raises: the `KeyError` naming the
missing identifier columns (line 51) and the `KeyError` for no reading
columns (line 57). -/
inductive PipeError where
  | missingColumns : List String → PipeError
  | noReadingColumns : PipeError
deriving DecidableEq

/-- Lines 44-47: repair the `Staion` alias — rename it to `Station` when
the canonical column is absent, drop it when both are present. -/
def aliasFix (df : Table) : Table :=
  if "Station" ∉ df.cols ∧ "Staion" ∈ df.cols then renameCol "Staion" "Station" df
  else if "Station" ∈ df.cols ∧ "Staion" ∈ df.cols then dropCol "Staion" df
  else df

/-- Whether one of the two alias branches ran: exactly then `df` was
rebound to a fresh frame (`rename`/`drop` return copies), so later
in-place writes do not reach the caller's table. -/
def aliasBranchRan (df : Table) : Bool :=
  decide (("Station" ∉ df.cols ∧ "Staion" ∈ df.cols) ∨
          ("Station" ∈ df.cols ∧ "Staion" ∈ df.cols))

/-- The caller's table as it stands after `to_long` returns: untouched when
an alias branch rebound `df` to a copy, otherwise mutated in place by the
`df["Date"] = pd.to_datetime(...)` assignment of line 53 (itself a no-op
when `Date` already has datetime dtype). -/
def callerAfter (df : Table) : Table :=
  if aliasBranchRan df then df else coerceDates df

/-- `to_long` of `app.py` (lines 43-75).  The success value pairs the
output record list with the caller's table as left after the call. -/
def to_long (df0 : Table) : Except PipeError (List Rec × Table) :=
  let df1 := aliasFix df0
  let missing := requiredIdCols.filter (fun c => decide (c ∉ df1.cols))
  if missing ≠ [] then Except.error (PipeError.missingColumns missing)
  else
    let df2 := coerceDates df1
    let bms := bmsNames.filter (fun c => decide (c ∈ df2.cols))
    let man := manualNames.filter (fun c => decide (c ∈ df2.cols))
    if bms = [] ∧ man = [] then Except.error PipeError.noReadingColumns
    else Except.ok (blankStage (preBlank df2), callerAfter df0)

/-- `s.replace("\xa0", " ").strip()`. -/
def stripStr (s : String) : String :=
  pyStrip (String.mk (s.data.map (fun c => if c == '\u00A0' then ' ' else c)))

/-- Whitespace normalization of one cell: only string cells are text
valued, so only they are touched. -/
def stripCell : Cell → Cell
  | Cell.str s => Cell.str (stripStr s)
  | c => c

/-- Lines 25-27 of `load_csv_clean`: strip non-breaking spaces and
surrounding whitespace from every column name and every text cell. -/
def normalizeTable (t : Table) : Table :=
  { cols := t.cols.map stripStr,
    rows := t.rows.map (fun r => r.map (fun p => (stripStr p.1, stripCell p.2))),
    datetimeCols := t.datetimeCols.map stripStr }

/-- The ordered encoding priority list of `load_csv_clean` (line 13). -/
def encodings_to_try : List String := ["cp1252", "latin1", "utf-8-sig", "utf-8"]

/-- The decode-attempt loop of lines 16-21: `decode` models
`pd.read_csv(file_or_path, encoding=enc, parse_dates=...)`, returning the
parsed table or the raised error message.  Returns the first successful
table (if any) together with `last_err` as the loop leaves it. -/
def tryEncodings (decode : String → Except String Table) :
    List String → Option String → Option Table × Option String
  | [], lastErr => (none, lastErr)
  | e :: rest, lastErr =>
    match decode e with
    | Except.ok t => (some t, lastErr)
    | Except.error err => tryEncodings decode rest (some err)

/-- The `st.warning` message of line 24, describing the degraded lossy
mode and the last decode error. -/
def warnMsg (lastErr : Option String) : String :=
  "Loaded with encoding=cp1252 and encoding_errors=replace due to: " ++
    (match lastErr with
     | some e => e
     | none => "None")

/-- `load_csv_clean` of `app.py` (lines 11-28), over an abstract decoder:
`decode enc` is the strict read at encoding `enc`, `decodeReplace enc` the
lossy read with `encoding_errors="replace"` (which cannot fail on
encoding grounds).  Returns the normalized table and the list of warnings
emitted. -/
def load_csv_clean (decode : String → Except String Table)
    (decodeReplace : String → Table) : Table × List String :=
  match tryEncodings decode encodings_to_try none with
  | (some t, _) => (normalizeTable t, [])
  | (none, lastErr) => (normalizeTable (decodeReplace "cp1252"), [warnMsg lastErr])

/-! ### Concrete tables used by witnesses and counterexamples -/

/-- The one-row table of the end-to-end scenario: `Date=2024-01-01`,
`Station="A"`, `Location="Platform1"`, `1400_BMS=26.5` (26.5 = 53/2) and
no manual reading columns. -/
def endToEndTable : Table :=
  { cols := ["Date", "Station", "Common Location", "Location", "1400_BMS"],
    rows := [[("Date", Cell.str "2024-01-01"), ("Station", Cell.str "A"),
      ("Common Location", Cell.str "X"), ("Location", Cell.str "Platform1"),
      ("1400_BMS", Cell.num (mkRat 53 2))]],
    datetimeCols := [] }

/-- The single long record `to_long` produces for `endToEndTable`. -/
def endToEndRec : Rec :=
  { Date := Cell.date 20240101, Station := Cell.str "A",
    CommonLocation := Cell.str "X", Location := Cell.str "Platform1",
    Time := "1400_BMS", Value := Cell.num (mkRat 53 2), Source := "BMS",
    TimeLabel := some "14:00" }

/-- The caller's table after `to_long endToEndTable` returns: the `Date`
column was coerced in place. -/
def endToEndAfter : Table :=
  { cols := ["Date", "Station", "Common Location", "Location", "1400_BMS"],
    rows := [[("Date", Cell.date 20240101), ("Station", Cell.str "A"),
      ("Common Location", Cell.str "X"), ("Location", Cell.str "Platform1"),
      ("1400_BMS", Cell.num (mkRat 53 2))]],
    datetimeCols := ["Date"] }

/-- A table carrying both the canonical `Station` column and the `Staion`
alias, with different values. -/
def aliasBothTable : Table :=
  { cols := ["Date", "Station", "Staion", "Common Location", "Location", "1400_BMS"],
    rows := [[("Date", Cell.str "2024-01-01"), ("Station", Cell.str "S1"),
      ("Staion", Cell.str "S2"), ("Common Location", Cell.str "X"),
      ("Location", Cell.str "P"), ("1400_BMS", Cell.num 20)]],
    datetimeCols := [] }

/-- A table with `Station` absent and the `Staion` alias present. -/
def aliasOnlyTable : Table :=
  { cols := ["Date", "Staion", "Common Location", "Location", "1400_BMS"],
    rows := [[("Date", Cell.str "2024-01-01"), ("Staion", Cell.str "S2"),
      ("Common Location", Cell.str "X"), ("Location", Cell.str "P"),
      ("1400_BMS", Cell.num 20)]],
    datetimeCols := [] }

/-- A table lacking the `Location` identifier column. -/
def missingLocTable : Table :=
  { cols := ["Date", "Station", "Common Location", "1400_BMS"],
    rows := [], datetimeCols := [] }

/-- A structurally valid table whose single row has every per-row
data-quality issue at once: an unparseable date, a blank station, and a
non-numeric reading. -/
def junkRowTable : Table :=
  { cols := ["Date", "Station", "Common Location", "Location", "1400_BMS"],
    rows := [[("Date", Cell.str "notadate"), ("Station", Cell.str "  "),
      ("Common Location", Cell.str "X"), ("Location", Cell.str "P"),
      ("1400_BMS", Cell.str "abc")]],
    datetimeCols := [] }

/-- An intermediate melted record whose raw `Time` name normalizes to the
non-canonical label `"99:67"`. -/
def nonCanonicalRec : Rec :=
  { Date := Cell.date 20240101, Station := Cell.str "A",
    CommonLocation := Cell.str "X", Location := Cell.str "P",
    Time := "9967_BMS", Value := Cell.num 20, Source := "BMS",
    TimeLabel := some "99:67" }

/-- `endToEndTable` with a blank `Common Location`. -/
def blankCommonTable : Table :=
  { cols := ["Date", "Station", "Common Location", "Location", "1400_BMS"],
    rows := [[("Date", Cell.str "2024-01-01"), ("Station", Cell.str "A"),
      ("Common Location", Cell.str "  "), ("Location", Cell.str "Platform1"),
      ("1400_BMS", Cell.num (mkRat 53 2))]],
    datetimeCols := [] }

/-- The long record `to_long` produces for `blankCommonTable`. -/
def blankCommonRec : Rec :=
  { Date := Cell.date 20240101, Station := Cell.str "A",
    CommonLocation := Cell.str "  ", Location := Cell.str "Platform1",
    Time := "1400_BMS", Value := Cell.num (mkRat 53 2), Source := "BMS",
    TimeLabel := some "14:00" }

/-- The caller's table after `to_long blankCommonTable` returns. -/
def blankCommonAfter : Table :=
  { cols := ["Date", "Station", "Common Location", "Location", "1400_BMS"],
    rows := [[("Date", Cell.date 20240101), ("Station", Cell.str "A"),
      ("Common Location", Cell.str "  "), ("Location", Cell.str "Platform1"),
      ("1400_BMS", Cell.num (mkRat 53 2))]],
    datetimeCols := ["Date"] }

/-- A decoder for which every encoding attempt raises. -/
def failingDecode : String → Except String Table :=
  fun enc => Except.error ("decode failed at " ++ enc)

/-- A lossy decoder returning a fixed empty table. -/
def emptyTableDecode : String → Table :=
  fun _ => { cols := [], rows := [], datetimeCols := [] }

/-! ### Helper lemmas about the pipeline stages -/

lemma to_long_eq_ok {df : Table} {out : List Rec} {after : Table}
    (h : to_long df = Except.ok (out, after)) :
    out = blankStage (preBlank (coerceDates (aliasFix df))) ∧ after = callerAfter df := by
  simp only [to_long] at h
  split at h
  · simp at h
  · split at h
    · simp at h
    · rw [Except.ok.injEq, Prod.mk.injEq] at h
      exact ⟨h.1.symm, h.2.symm⟩

lemma mem_of_mem_blankStage {r : Rec} {rs : List Rec} (h : r ∈ blankStage rs) :
    r ∈ rs ∧ pyStrip (cellStr r.Station) ≠ "" ∧ pyStrip (cellStr r.Location) ≠ "" := by
  rw [blankStage, List.mem_filter] at h
  obtain ⟨h1, h2⟩ := h
  rw [Bool.and_eq_true, decide_eq_true_eq, decide_eq_true_eq] at h2
  exact ⟨h1, h2⟩

lemma mem_blankStage_of_mem {r : Rec} {rs : List Rec} (h : r ∈ rs)
    (hs : pyStrip (cellStr r.Station) ≠ "") (hl : pyStrip (cellStr r.Location) ≠ "") :
    r ∈ blankStage rs := by
  rw [blankStage, List.mem_filter]
  exact ⟨h, by rw [Bool.and_eq_true, decide_eq_true_eq, decide_eq_true_eq]; exact ⟨hs, hl⟩⟩

lemma mem_labelStage_ex {r : Rec} {rs : List Rec} (h : r ∈ labelStage rs) :
    ∃ r0 ∈ rs, r = { r0 with TimeLabel := toCategorical (to_time_label r0.Time) } := by
  rw [labelStage, List.mem_map] at h
  obtain ⟨r0, h0, hr⟩ := h
  exact ⟨r0, h0, hr.symm⟩

lemma value_of_mem_rangeStage {r : Rec} {rs : List Rec} (h : r ∈ rangeStage rs) :
    r ∈ rs ∧ ∃ q : ℚ, r.Value = Cell.num q ∧ 15 ≤ q ∧ q ≤ 50 := by
  rw [rangeStage, List.mem_filter] at h
  obtain ⟨h1, h2⟩ := h
  rw [Bool.and_eq_true] at h2
  refine ⟨h1, ?_⟩
  cases hv : r.Value with
  | num q =>
    rw [hv] at h2
    simp only [cellGE, cellLE, decide_eq_true_eq] at h2
    exact ⟨q, rfl, h2.1, h2.2⟩
  | na => rw [hv] at h2; simp [cellGE] at h2
  | str s => rw [hv] at h2; simp [cellGE] at h2
  | date t => rw [hv] at h2; simp [cellGE] at h2

lemma mem_of_mem_dropnaStage {r : Rec} {rs : List Rec} (h : r ∈ dropnaStage rs) :
    r ∈ rs ∧ notNa r.Value = true ∧ notNa r.Date = true := by
  rw [dropnaStage, List.mem_filter, Bool.and_eq_true] at h
  exact ⟨h.1, h.2.1, h.2.2⟩

lemma mem_toNumericStage_ex {r : Rec} {rs : List Rec} (h : r ∈ toNumericStage rs) :
    ∃ r0 ∈ rs, r = { r0 with Value := toNumericCell r0.Value } := by
  rw [toNumericStage, List.mem_map] at h
  obtain ⟨r0, h0, hr⟩ := h
  exact ⟨r0, h0, hr.symm⟩

lemma time_of_mem_meltStage {df : Table} {r : Rec} (h : r ∈ meltStage df) :
    r.Time ∈ manualNames ∨ r.Time ∈ bmsNames := by
  rw [meltStage, List.mem_append] at h
  rcases h with h | h <;>
  · rw [setSource, List.mem_map] at h
    obtain ⟨r1, h1, hr⟩ := h
    rw [melt, List.mem_flatMap] at h1
    obtain ⟨v, hv, h2⟩ := h1
    rw [List.mem_map] at h2
    obtain ⟨row, -, h3⟩ := h2
    rw [List.mem_filter] at hv
    first
      | exact Or.inl (by rw [← hr, ← h3]; exact hv.1)
      | exact Or.inr (by rw [← hr, ← h3]; exact hv.1)

lemma timeSearch_amended (orig : String) (cs : List Char) :
    timeSearch orig cs =
      (match digitPairPos cs with
       | none => orig
       | some i =>
         match cs.drop i with
         | c1 :: c2 :: c3 :: c4 :: _ =>
           if c3.isDigit && c4.isDigit then
             String.mk [c1, c2] ++ ":" ++ String.mk [c3, c4]
           else String.mk [c1, c2] ++ ":00"
         | c1 :: c2 :: _ => String.mk [c1, c2] ++ ":00"
         | _ => orig) := by
  induction cs with
  | nil => rfl
  | cons c1 tl ih =>
    cases tl with
    | nil => rfl
    | cons c2 rest =>
      cases hd : (c1.isDigit && c2.isDigit) with
      | true =>
        cases rest with
        | nil => simp [timeSearch, digitPairPos, hd]
        | cons c3 r2 =>
          cases r2 with
          | nil => simp [timeSearch, digitPairPos, hd]
          | cons c4 r3 => simp [timeSearch, digitPairPos, hd]
      | false =>
        have hL : timeSearch orig (c1 :: c2 :: rest) = timeSearch orig (c2 :: rest) := by
          simp [timeSearch, hd]
        have hP : digitPairPos (c1 :: c2 :: rest) =
            (digitPairPos (c2 :: rest)).map (fun i => i + 1) := by
          simp [digitPairPos, hd]
        rw [hL, ih, hP]
        cases hp : digitPairPos (c2 :: rest) with
        | none => simp
        | some j => simp [List.drop_succ_cons]

/-! ### C1 -/

/-- C1: for every input table successfully processed by `to_long`, every
record in the output has a numeric `Value` with `15 ≤ Value ≤ 50`
inclusive; in particular a record with value 5 or 51 never appears. -/
theorem C1_value_range (df : Table) (out : List Rec) (after : Table)
    (h : to_long df = Except.ok (out, after)) (r : Rec) (hr : r ∈ out) :
    (∃ q : ℚ, r.Value = Cell.num q ∧ 15 ≤ q ∧ q ≤ 50) ∧
    r.Value ≠ Cell.num 5 ∧ r.Value ≠ Cell.num 51 := by
  obtain ⟨hout, -⟩ := to_long_eq_ok h
  subst hout
  obtain ⟨hr1, -, -⟩ := mem_of_mem_blankStage hr
  rw [preBlank] at hr1
  obtain ⟨r0, hr0, rfl⟩ := mem_labelStage_ex hr1
  obtain ⟨-, q, hq, h15, h50⟩ := value_of_mem_rangeStage hr0
  have hval : ({ r0 with TimeLabel := toCategorical (to_time_label r0.Time) } : Rec).Value
      = r0.Value := rfl
  rw [hval, hq]
  refine ⟨⟨q, rfl, h15, h50⟩, ?_, ?_⟩
  · intro hc
    rw [Cell.num.injEq] at hc
    rw [hc] at h15
    norm_num at h15
  · intro hc
    rw [Cell.num.injEq] at hc
    rw [hc] at h50
    norm_num at h50

/-- Witness for C1 at the concrete end-to-end table. -/
theorem C1_value_range_witness :
    (∃ q : ℚ, endToEndRec.Value = Cell.num q ∧ 15 ≤ q ∧ q ≤ 50) ∧
    endToEndRec.Value ≠ Cell.num 5 ∧ endToEndRec.Value ≠ Cell.num 51 :=
  C1_value_range endToEndTable [endToEndRec] endToEndAfter rfl endToEndRec
    (List.mem_singleton.mpr rfl)

/-! ### C2 -/

/-- C2 counterexample: on the end-to-end table the single output record
carries `Source = "BMS"`, not `Source = "Automated"` as the claim states
(the code tags the automated family with the literal string `"BMS"`). -/
theorem C2_source_counterexample :
    to_long endToEndTable = Except.ok ([endToEndRec], endToEndAfter) ∧
    endToEndRec.Source = "BMS" ∧ endToEndRec.Source ≠ "Automated" := by
  refine ⟨rfl, rfl, ?_⟩
  decide

/-- C2 amended: for the one-row table with `Date=2024-01-01`,
`Station="A"`, `Location="Platform1"`, `1400_BMS=26.5` and no manual
reading columns, `to_long` produces exactly one record, and it has
`Source = "BMS"` (the automated-family tag the code actually uses),
`TimeLabel = "14:00"` and `Value = 26.5`. -/
theorem C2_end_to_end_amended :
    to_long endToEndTable = Except.ok ([endToEndRec], endToEndAfter) ∧
    endToEndRec.Source = "BMS" ∧ endToEndRec.TimeLabel = some "14:00" ∧
    endToEndRec.Value = Cell.num (mkRat 53 2) :=
  ⟨rfl, rfl, rfl, rfl⟩

/-! ### C3 -/

/-- C3 counterexample: `"X07A1400"` contains the 4-digit group `1400`
whose digits form a valid hour and minute, so the claimed priority order
demands the label `"14:00"` (as `to_time_label_specWords`, the claim
verbatim, computes); but `to_time_label` returns `"07:00"`, because the
regex search is leftmost-first and the earlier bare 2-digit group `07`
wins. -/
theorem C3_priority_counterexample :
    to_time_label "X07A1400" = "07:00" ∧
    to_time_label_specWords "X07A1400" = "14:00" ∧
    to_time_label "X07A1400" ≠ to_time_label_specWords "X07A1400" := by
  refine ⟨rfl, rfl, ?_⟩
  decide

/-- C3 amended: `to_time_label` reads the label at the leftmost position
where two consecutive digits start — four digits starting there give
`"HH:MM"` with no validity check on hour or minute, two give `"HH:00"`,
and a name with no two consecutive digits is returned unchanged
(`to_time_label_amended` restates exactly this).  In particular
`"1400_BMS"` maps to `"14:00"`, `"Manual07"` to `"07:00"`, and the
invalid time in `"9967_BMS"` is not rejected but becomes `"99:67"`. -/
theorem C3_time_label_amended :
    (∀ s : String, to_time_label s = to_time_label_amended s) ∧
    to_time_label "1400_BMS" = "14:00" ∧
    to_time_label "Manual07" = "07:00" ∧
    to_time_label "9967_BMS" = "99:67" := by
  refine ⟨fun s => ?_, rfl, rfl, rfl⟩
  rw [to_time_label, timeSearch_amended, to_time_label_amended]

/-- Witness for C3 at a concrete column name. -/
theorem C3_time_label_amended_witness :
    to_time_label "1600_BMS" = to_time_label_amended "1600_BMS" :=
  C3_time_label_amended.1 "1600_BMS"

/-! ### C4 -/

lemma lookup_filter_ne (k kd : String) (h : k ≠ kd) (l : Row) :
    List.lookup k (l.filter (fun p => decide (p.1 ≠ kd))) = List.lookup k l := by
  induction l with
  | nil => rfl
  | cons a l ih =>
    obtain ⟨a1, a2⟩ := a
    by_cases h1 : a1 = kd
    · subst h1
      have hk : (k == a1) = false := by
        rw [beq_eq_false_iff_ne]
        exact h
      simp only [List.filter_cons, List.lookup, hk]
      simp only [decide_eq_true_eq]
      rw [if_neg (by simp)]
      simpa using ih
    · by_cases h2 : k = a1
      · subst h2
        simp [List.filter_cons, List.lookup, h1]
      · have hk : (k == a1) = false := by
          rw [beq_eq_false_iff_ne]
          exact h2
        simp only [List.filter_cons]
        rw [if_pos (by simpa using h1)]
        simp only [List.lookup, hk]
        simpa using ih

lemma lookup_renameKey (l : Row) :
    (∀ p ∈ l, p.1 ≠ "Station") →
    List.lookup "Station" (renameKey "Staion" "Station" l) = List.lookup "Staion" l := by
  induction l with
  | nil => intro _; rfl
  | cons a l ih =>
    intro hnk
    obtain ⟨a1, a2⟩ := a
    have ha1 : a1 ≠ "Station" := hnk (a1, a2) (List.mem_cons_self _ _)
    have ihl := ih (fun p hp => hnk p (List.mem_cons_of_mem _ hp))
    by_cases h1 : a1 = "Staion"
    · subst h1
      simp [renameKey, List.lookup]
    · have hne : ("Station" == (if a1 = "Staion" then "Station" else a1)) = false := by
        rw [if_neg h1, beq_eq_false_iff_ne]
        exact fun he => ha1 he.symm
      have hne2 : ("Staion" == a1) = false := by
        rw [beq_eq_false_iff_ne]
        exact fun he => h1 he.symm
      simp only [renameKey, List.map_cons, List.lookup, hne, hne2]
      exact ihl

/-- C4: when both the canonical `Station` column and the `Staion` alias
are present, reconciliation keeps the canonical column's values unchanged
and removes `Staion` entirely; when `Station` is absent and `Staion`
present, `Staion` is renamed to `Station` (so `Station` afterwards holds
the alias column's values and `Staion` is gone). -/
theorem C4_alias_rules (df : Table) (hwf : WF df) :
    (("Station" ∈ df.cols ∧ "Staion" ∈ df.cols) →
       getColumn (aliasFix df) "Station" = getColumn df "Station" ∧
       "Staion" ∉ (aliasFix df).cols) ∧
    (("Station" ∉ df.cols ∧ "Staion" ∈ df.cols) →
       getColumn (aliasFix df) "Station" = getColumn df "Staion" ∧
       "Station" ∈ (aliasFix df).cols ∧ "Staion" ∉ (aliasFix df).cols) := by
  constructor
  · rintro ⟨hs, ha⟩
    have hfix : aliasFix df = dropCol "Staion" df := by
      rw [aliasFix, if_neg, if_pos ⟨hs, ha⟩]
      rintro ⟨hn, -⟩
      exact hn hs
    rw [hfix]
    constructor
    · rw [getColumn, getColumn, dropCol]
      simp only [List.map_map]
      rw [List.map_eq_map_iff]
      intro r _
      simp only [Function.comp_apply, getCell]
      rw [lookup_filter_ne _ _ (by decide)]
    · rw [dropCol]
      simp
  · rintro ⟨hs, ha⟩
    have hfix : aliasFix df = renameCol "Staion" "Station" df := by
      rw [aliasFix, if_pos ⟨hs, ha⟩]
    rw [hfix]
    refine ⟨?_, ?_, ?_⟩
    · rw [getColumn, getColumn, renameCol]
      simp only [List.map_map]
      rw [List.map_eq_map_iff]
      intro r hr
      simp only [Function.comp_apply, getCell]
      rw [lookup_renameKey r]
      intro p hp hps
      apply hs
      rw [← hwf r hr]
      rw [List.mem_map]
      exact ⟨p, hp, hps⟩
    · rw [renameCol]
      simp only [List.mem_map]
      exact ⟨"Staion", ha, by rw [if_pos rfl]⟩
    · rw [renameCol]
      simp only [List.mem_map, not_exists]
      rintro c ⟨hc, he⟩
      by_cases h1 : c = "Staion"
      · rw [if_pos h1] at he
        exact absurd he (by decide)
      · rw [if_neg h1] at he
        exact h1 he

/-- Witness for C4 at a table carrying both spellings with different
values. -/
theorem C4_alias_rules_witness :
    getColumn (aliasFix aliasBothTable) "Station" = getColumn aliasBothTable "Station" ∧
    "Staion" ∉ (aliasFix aliasBothTable).cols :=
  (C4_alias_rules aliasBothTable (by decide)).1 ⟨by decide, by decide⟩

/-! ### C5 -/

/-- C5: when, after alias repair, identifier columns are missing, `to_long`
fails with the missing-columns error carrying every missing column (and
nothing is produced); when all four are present, no missing-columns error
is raised. -/
theorem C5_missing_columns (df : Table) :
    (requiredIdCols.filter (fun c => decide (c ∉ (aliasFix df).cols)) ≠ [] →
       to_long df = Except.error (PipeError.missingColumns
         (requiredIdCols.filter (fun c => decide (c ∉ (aliasFix df).cols)))) ∧
       ∀ c ∈ requiredIdCols, c ∉ (aliasFix df).cols →
         c ∈ requiredIdCols.filter (fun c => decide (c ∉ (aliasFix df).cols))) ∧
    (requiredIdCols.filter (fun c => decide (c ∉ (aliasFix df).cols)) = [] →
       ∀ ms, to_long df ≠ Except.error (PipeError.missingColumns ms)) := by
  constructor
  · intro hne
    constructor
    · simp only [to_long]
      rw [if_pos hne]
    · intro c hc hnc
      rw [List.mem_filter]
      exact ⟨hc, by simpa using hnc⟩
  · intro heq ms
    simp only [to_long]
    rw [if_neg (fun hc => hc heq)]
    split
    · intro hcon
      rw [Except.error.injEq] at hcon
      cases hcon
    · intro hcon
      cases hcon

/-- Witness for C5 at a table lacking the `Location` column. -/
theorem C5_missing_columns_witness :
    to_long missingLocTable = Except.error (PipeError.missingColumns ["Location"]) ∧
    "Location" ∈ requiredIdCols.filter
      (fun c => decide (c ∉ (aliasFix missingLocTable).cols)) := by
  have h := (C5_missing_columns missingLocTable).1 (by decide)
  exact ⟨h.1, h.2 "Location" (by decide) (by decide)⟩

/-! ### C6 -/

lemma coerceDates_cols (t : Table) : (coerceDates t).cols = t.cols := by
  rw [coerceDates]
  split <;> rfl

lemma notNa_ne {c : Cell} (h : notNa c = true) : c ≠ Cell.na := by
  cases c <;> simp_all [notNa]

/-- C6: per-row data-quality issues never make `to_long` raise — whenever
the reconciled table has the four identifier columns and at least one
reading column, `to_long` succeeds whatever the cell contents are, and
every affected record is excluded: each output record has a non-missing
value, a non-missing date, and non-blank station and location. -/
theorem C6_row_issues_never_raise (df : Table)
    (hreq : ∀ c ∈ requiredIdCols, c ∈ (aliasFix df).cols)
    (hread : bmsNames.filter (fun c => decide (c ∈ (aliasFix df).cols)) ≠ [] ∨
             manualNames.filter (fun c => decide (c ∈ (aliasFix df).cols)) ≠ []) :
    (∃ out after, to_long df = Except.ok (out, after)) ∧
    (∀ out after, to_long df = Except.ok (out, after) →
       ∀ r ∈ out, r.Value ≠ Cell.na ∧ r.Date ≠ Cell.na ∧
         pyStrip (cellStr r.Station) ≠ "" ∧ pyStrip (cellStr r.Location) ≠ "") := by
  constructor
  · refine ⟨blankStage (preBlank (coerceDates (aliasFix df))), callerAfter df, ?_⟩
    simp only [to_long]
    rw [if_neg, if_neg]
    · rw [coerceDates_cols] at *
      rintro ⟨hb, hm⟩
      rcases hread with h | h
      · exact h hb
      · exact h hm
    · simp only [ne_eq, not_not]
      rw [List.filter_eq_nil_iff]
      intro c hc
      simpa using hreq c hc
  · intro out after h r hr
    obtain ⟨hout, -⟩ := to_long_eq_ok h
    subst hout
    obtain ⟨hr1, hstat, hloc⟩ := mem_of_mem_blankStage hr
    rw [preBlank] at hr1
    obtain ⟨r0, hr0, rfl⟩ := mem_labelStage_ex hr1
    obtain ⟨hr2, q, hq, -, -⟩ := value_of_mem_rangeStage hr0
    obtain ⟨-, -, hdate⟩ := mem_of_mem_dropnaStage hr2
    refine ⟨?_, ?_, hstat, hloc⟩
    · show r0.Value ≠ Cell.na
      rw [hq]
      exact fun hcon => Cell.noConfusion hcon
    · show r0.Date ≠ Cell.na
      exact notNa_ne hdate

/-- Witness for C6 at a table whose single row has an unparseable date, a
blank station and a non-numeric value all at once. -/
theorem C6_row_issues_never_raise_witness :
    (∃ out after, to_long junkRowTable = Except.ok (out, after)) ∧
    (∀ out after, to_long junkRowTable = Except.ok (out, after) →
       ∀ r ∈ out, r.Value ≠ Cell.na ∧ r.Date ≠ Cell.na ∧
         pyStrip (cellStr r.Station) ≠ "" ∧ pyStrip (cellStr r.Location) ≠ "") :=
  C6_row_issues_never_raise junkRowTable (by decide) (by decide)

/-! ### C7 -/

/-- C7 counterexample: a melted intermediate record whose raw `Time` name
`"9967_BMS"` normalizes to the non-canonical label `"99:67"` does not
retain that label — the categorical conversion of line 73 replaces it
with a missing value (`none`), so the output `TimeLabel` is not the
normalized label. -/
theorem C7_noncanonical_counterexample :
    to_time_label nonCanonicalRec.Time = "99:67" ∧
    "99:67" ∉ TIME_ORDER ∧
    labelStage [nonCanonicalRec] = [{ nonCanonicalRec with TimeLabel := none }] ∧
    ({ nonCanonicalRec with TimeLabel := none } : Rec).TimeLabel ≠
      some (to_time_label nonCanonicalRec.Time) := by
  refine ⟨rfl, by decide, rfl, by decide⟩

lemma to_time_label_known (c : String)
    (h : c ∈ manualNames ∨ c ∈ bmsNames) : to_time_label c ∈ TIME_ORDER := by
  rcases h with h | h <;> fin_cases h <;> decide

/-- C7 amended: a record whose normalized time label is not one of the six
canonical labels has its `TimeLabel` replaced by a missing value (NaN),
not retained; inside `to_long` no such record ever reaches the output —
every output record carries one of the six canonical labels, because the
melted columns come from the fixed reading-column lists. -/
theorem C7_label_retention_amended :
    (∀ (rs : List Rec) (r : Rec), r ∈ labelStage rs →
       to_time_label r.Time ∉ TIME_ORDER → r.TimeLabel = none) ∧
    (∀ (df : Table) (out : List Rec) (after : Table),
       to_long df = Except.ok (out, after) →
       ∀ r ∈ out, ∃ t, r.TimeLabel = some t ∧ t ∈ TIME_ORDER) := by
  constructor
  · intro rs r hr hm
    obtain ⟨r0, -, rfl⟩ := mem_labelStage_ex hr
    show toCategorical (to_time_label r0.Time) = none
    rw [toCategorical, if_neg]
    exact fun hc => hm hc
  · intro df out after h r hr
    obtain ⟨hout, -⟩ := to_long_eq_ok h
    subst hout
    obtain ⟨hr1, -, -⟩ := mem_of_mem_blankStage hr
    rw [preBlank] at hr1
    obtain ⟨r0, hr0, rfl⟩ := mem_labelStage_ex hr1
    obtain ⟨hr2, -⟩ := value_of_mem_rangeStage hr0
    obtain ⟨hr3, -, -⟩ := mem_of_mem_dropnaStage hr2
    obtain ⟨r1, hr4, rfl⟩ := mem_toNumericStage_ex hr3
    have htime : to_time_label r1.Time ∈ TIME_ORDER :=
      to_time_label_known r1.Time (time_of_mem_meltStage hr4)
    refine ⟨to_time_label r1.Time, ?_, htime⟩
    show toCategorical (to_time_label r1.Time) = some (to_time_label r1.Time)
    rw [toCategorical, if_pos htime]

/-- Witness for C7 at a concrete record with a non-canonical label. -/
theorem C7_label_retention_amended_witness :
    ({ nonCanonicalRec with TimeLabel := none } : Rec).TimeLabel = none :=
  C7_label_retention_amended.1 [nonCanonicalRec]
    { nonCanonicalRec with TimeLabel := none } (by decide) (by decide)

/-! ### C8 -/

/-- C8 counterexample: on the end-to-end table (canonical `Station`
present, no alias, `Date` not yet of datetime dtype) `to_long` returns,
yet the caller's table is changed: its `Date` column now holds the
coerced datetime values. -/
theorem C8_mutation_counterexample :
    to_long endToEndTable = Except.ok ([endToEndRec], endToEndAfter) ∧
    endToEndAfter ≠ endToEndTable ∧
    getColumn endToEndAfter "Date" ≠ getColumn endToEndTable "Date" := by
  refine ⟨rfl, by decide, by decide⟩

/-- C8 amended: `to_long` leaves the caller's table unchanged when an
alias branch ran (rebinding `df` to a fresh frame) or when `Date` already
has datetime dtype; otherwise the `df["Date"] =` assignment of line 53
mutates the caller's table in place, replacing every `Date` cell by its
coerced value and marking the column as datetime. -/
theorem C8_caller_table_amended (df : Table) (out : List Rec) (after : Table)
    (h : to_long df = Except.ok (out, after)) :
    ((aliasBranchRan df = true ∨ "Date" ∈ df.datetimeCols) → after = df) ∧
    (aliasBranchRan df = false → "Date" ∉ df.datetimeCols →
       after = { cols := df.cols, rows := df.rows.map setDateRow,
                 datetimeCols := "Date" :: df.datetimeCols }) := by
  obtain ⟨-, hafter⟩ := to_long_eq_ok h
  subst hafter
  constructor
  · rintro (hb | hd)
    · rw [callerAfter, if_pos hb]
    · rw [callerAfter]
      split
      · rfl
      · rw [coerceDates, if_pos hd]
  · intro hb hd
    rw [callerAfter, if_neg (by simp [hb]), coerceDates, if_neg hd]

/-- Witness for C8 at the end-to-end table, where the mutating branch
runs. -/
theorem C8_caller_table_amended_witness :
    endToEndAfter = Table.mk endToEndTable.cols
      (endToEndTable.rows.map setDateRow)
      ("Date" :: endToEndTable.datetimeCols) :=
  (C8_caller_table_amended endToEndTable [endToEndRec] endToEndAfter rfl).2
    (by decide) (by decide)

/-! ### C9 -/

/-- C9: the loader tries the ordered encoding list and uses the first
decode that succeeds, emitting no warning; when every attempt fails it
falls back to the lossy cp1252-with-replacement decode (which cannot fail
on encoding grounds), emitting exactly the warning that names the
degraded mode and the last error; and a warning is emitted only when
every strict attempt failed. -/
theorem C9_encoding_fallback (decode : String → Except String Table)
    (dr : String → Table) :
    (∀ t, decode "cp1252" = Except.ok t →
       load_csv_clean decode dr = (normalizeTable t, [])) ∧
    (∀ e1 t, decode "cp1252" = Except.error e1 → decode "latin1" = Except.ok t →
       load_csv_clean decode dr = (normalizeTable t, [])) ∧
    (∀ e1 e2 t, decode "cp1252" = Except.error e1 → decode "latin1" = Except.error e2 →
       decode "utf-8-sig" = Except.ok t →
       load_csv_clean decode dr = (normalizeTable t, [])) ∧
    (∀ e1 e2 e3 t, decode "cp1252" = Except.error e1 → decode "latin1" = Except.error e2 →
       decode "utf-8-sig" = Except.error e3 → decode "utf-8" = Except.ok t →
       load_csv_clean decode dr = (normalizeTable t, [])) ∧
    (∀ e1 e2 e3 e4, decode "cp1252" = Except.error e1 → decode "latin1" = Except.error e2 →
       decode "utf-8-sig" = Except.error e3 → decode "utf-8" = Except.error e4 →
       load_csv_clean decode dr = (normalizeTable (dr "cp1252"), [warnMsg (some e4)])) ∧
    (∀ T ws, load_csv_clean decode dr = (T, ws) → ws ≠ [] →
       ∀ enc ∈ encodings_to_try, ∃ err, decode enc = Except.error err) := by
  refine ⟨?_, ?_, ?_, ?_, ?_, ?_⟩
  · intro t h1
    simp [load_csv_clean, encodings_to_try, tryEncodings, h1]
  · intro e1 t h1 h2
    simp [load_csv_clean, encodings_to_try, tryEncodings, h1, h2]
  · intro e1 e2 t h1 h2 h3
    simp [load_csv_clean, encodings_to_try, tryEncodings, h1, h2, h3]
  · intro e1 e2 e3 t h1 h2 h3 h4
    simp [load_csv_clean, encodings_to_try, tryEncodings, h1, h2, h3, h4]
  · intro e1 e2 e3 e4 h1 h2 h3 h4
    simp [load_csv_clean, encodings_to_try, tryEncodings, h1, h2, h3, h4]
  · intro T ws hl hws
    cases h1 : decode "cp1252" with
    | ok t1 =>
      rw [load_csv_clean] at hl
      simp only [encodings_to_try, tryEncodings, h1] at hl
      rw [Prod.mk.injEq] at hl
      exact absurd hl.2.symm hws
    | error e1 =>
      cases h2 : decode "latin1" with
      | ok t2 =>
        rw [load_csv_clean] at hl
        simp only [encodings_to_try, tryEncodings, h1, h2] at hl
        rw [Prod.mk.injEq] at hl
        exact absurd hl.2.symm hws
      | error e2 =>
        cases h3 : decode "utf-8-sig" with
        | ok t3 =>
          rw [load_csv_clean] at hl
          simp only [encodings_to_try, tryEncodings, h1, h2, h3] at hl
          rw [Prod.mk.injEq] at hl
          exact absurd hl.2.symm hws
        | error e3 =>
          cases h4 : decode "utf-8" with
          | ok t4 =>
            rw [load_csv_clean] at hl
            simp only [encodings_to_try, tryEncodings, h1, h2, h3, h4] at hl
            rw [Prod.mk.injEq] at hl
            exact absurd hl.2.symm hws
          | error e4 =>
            intro enc henc
            fin_cases henc
            · exact ⟨e1, h1⟩
            · exact ⟨e2, h2⟩
            · exact ⟨e3, h3⟩
            · exact ⟨e4, h4⟩

/-- Witness for C9 with a decoder whose every strict attempt fails. -/
theorem C9_encoding_fallback_witness :
    load_csv_clean failingDecode emptyTableDecode =
      (normalizeTable (emptyTableDecode "cp1252"),
       [warnMsg (some "decode failed at utf-8")]) :=
  (C9_encoding_fallback failingDecode emptyTableDecode).2.2.2.2.1
    "decode failed at cp1252" "decode failed at latin1"
    "decode failed at utf-8-sig" "decode failed at utf-8" rfl rfl rfl rfl

/-! ### C10 -/

/-- C10: a blank `Common Location` never causes exclusion — any record
that reaches the blank-identifier filter with an empty trimmed
`Common Location` but non-blank trimmed `Station` and `Location` is in
the output; only blank `Station` or `Location` trigger that filter. -/
theorem C10_common_location_unchecked (df : Table) (out : List Rec) (after : Table)
    (h : to_long df = Except.ok (out, after)) (r : Rec)
    (hr : r ∈ preBlank (coerceDates (aliasFix df)))
    (_hcl : pyStrip (cellStr r.CommonLocation) = "")
    (hs : pyStrip (cellStr r.Station) ≠ "")
    (hl : pyStrip (cellStr r.Location) ≠ "") :
    r ∈ out := by
  obtain ⟨hout, -⟩ := to_long_eq_ok h
  subst hout
  exact mem_blankStage_of_mem hr hs hl

/-- Witness for C10 at a table whose single row has a blank
`Common Location` yet survives to the output. -/
theorem C10_common_location_unchecked_witness : blankCommonRec ∈ [blankCommonRec] :=
  C10_common_location_unchecked blankCommonTable [blankCommonRec] blankCommonAfter
    rfl blankCommonRec (by decide) (by decide) (by decide) (by decide)

end TempExplorer
